import Mathlib

/-!
# Verification of the cutting-parameter bot (`src/bot.py`)

Shallow embedding of the core of `bot.py`: the cutting-parameter catalog
(`cutting_parameters`), the pure calculation engine (`calculate_overlap`,
`calculate_cutting_width`), the per-state conversation handlers
(`start`, `material`, `operation`, `tool_type`, `tool_subtype`, `diameter`,
`number_of_teeth`, `depth_of_cut`, `radius`, `groove_width`,
`get_cutting_parameters`, `format_result`, `cancel`), and the
`ConversationHandler` dispatch (`advance`).

Modelling conventions:
* Python floats are modelled by exact rationals `ℚ`; the catalog constants and
  the thresholds `0.3 * diameter`, ... are read as the exact decimal fractions
  they denote.
* `math.sqrt` and `math.pi` are real-valued: square roots appear as `Real.sqrt`
  over `ℝ`, and the quantities of the form `c / π` (spindle speed `n`, feed per
  minute) are carried as their exact rational coefficient `c`, with the real
  value `c / Real.pi` recovered in the theorems that bound the displayed
  numbers.
* Python dictionaries are association lists with lookup `alookup`; a `d[k]`
  subscript that would raise `KeyError` is a failed lookup, and the
  `try/except KeyError` of `get_cutting_parameters` (whose handler returns
  `None`, the same value as every fall-through branch) collapses to `Option`
  chaining.
* Python truthiness on optional numbers/strings (`if diameter:`, `if n:`,
  `if not material`) is `qTruthy`/`sTruthy`: `None`, `0.0` and `""` are falsy.
* The messages a handler sends with `reply_text` are recorded as structured
  `Msg` values (keyboards and message formatting are presentation, owned by
  the telegram layer).
-/

/-- Dictionary lookup on an association list, the embedding of a Python `dict`
read: `alookup d k` is `d.get(k)`, and a failed lookup stands for `d[k]`
raising `KeyError` at the places where the source subscripts directly. -/
def alookup {α β : Type} [DecidableEq α] : List (α × β) → α → Option β
  | [], _ => none
  | (k, v) :: rest, a => if a = k then some v else alookup rest a

/-- A catalog leaf: `{'скорость': [a, b], 'подача': [c, d]}` with an optional
`'глубина': [e, f]` (absent for the grooving entries), from `bot.py` lines 15-92. -/
structure Entry where
  speed : ℚ × ℚ
  feed : ℚ × ℚ
  depth : Option (ℚ × ℚ)
deriving DecidableEq, Repr

/-- The dictionary sitting under a tool type in `cutting_parameters`: either a
mapping from subtype name to entry (milling and drilling tool types), or a
single-key dictionary `{dimKey: {number: entry, ...}}` with `dimKey` the literal
`'радиус_пластины'` or `'ширина_пластины'` (the turning tool types). -/
inductive ToolNode where
  | subtypes (m : List (String × Entry))
  | dims (dimKey : String) (m : List (ℚ × Entry))
deriving DecidableEq, Repr

/-- The static nested dictionary `cutting_parameters` of `bot.py` (lines 15-92),
keyed material → operation → tool type. -/
def cutting_parameters : List (String × List (String × List (String × ToolNode))) :=
  [("сталь",
    [("фрезерование",
      [("монолитная", .subtypes
         [("цилиндрическая", ⟨(80, 120), (0.1, 0.3), some (1, 4)⟩),
          ("сферическая", ⟨(70, 110), (0.08, 0.25), some (1, 3)⟩)]),
       ("с_пластинами", .subtypes
         [("торцевая", ⟨(100, 150), (0.15, 0.35), some (1, 5)⟩),
          ("пазовая", ⟨(90, 140), (0.1, 0.3), some (1, 4)⟩)])]),
     ("точение",
      [("проходной", .dims "радиус_пластины"
         [(0.4, ⟨(70, 100), (0.1, 0.3), some (1, 5)⟩),
          (0.8, ⟨(80, 110), (0.15, 0.35), some (1, 5)⟩),
          (1.2, ⟨(90, 120), (0.2, 0.4), some (1, 5)⟩)]),
       ("канавочный", .dims "ширина_пластины"
         [(2.0, ⟨(40, 60), (0.05, 0.15), none⟩),
          (3.0, ⟨(50, 70), (0.08, 0.2), none⟩),
          (4.0, ⟨(60, 80), (0.1, 0.25), none⟩)])]),
     ("сверление",
      [("монолитное", .subtypes
         [("hss", ⟨(30, 50), (0.05, 0.12), some (1, 8)⟩),
          ("hss-co", ⟨(40, 60), (0.08, 0.15), some (1, 10)⟩),
          ("твердый_сплав", ⟨(70, 100), (0.1, 0.2), some (1, 12)⟩)]),
       ("со_сменными_пластинами", .subtypes
         [("карбид", ⟨(70, 100), (0.1, 0.2), some (1, 12)⟩)])])]),
   ("цветной_металл",
    [("фрезерование",
      [("монолитная", .subtypes
         [("цилиндрическая", ⟨(150, 200), (0.2, 0.4), some (2, 6)⟩),
          ("сферическая", ⟨(140, 180), (0.15, 0.35), some (2, 5)⟩)]),
       ("с_пластинами", .subtypes
         [("торцевая", ⟨(180, 250), (0.25, 0.45), some (2, 8)⟩),
          ("пазовая", ⟨(160, 220), (0.2, 0.4), some (2, 6)⟩)])]),
     ("точение",
      [("проходной", .dims "радиус_пластины"
         [(0.4, ⟨(120, 150), (0.15, 0.3), some (2, 6)⟩),
          (0.8, ⟨(130, 160), (0.2, 0.35), some (2, 6)⟩),
          (1.2, ⟨(140, 180), (0.25, 0.4), some (2, 6)⟩)]),
       ("канавочный", .dims "ширина_пластины"
         [(2.0, ⟨(80, 120), (0.1, 0.2), none⟩),
          (3.0, ⟨(90, 130), (0.15, 0.25), none⟩),
          (4.0, ⟨(100, 140), (0.2, 0.3), none⟩)])]),
     ("сверление",
      [("монолитное", .subtypes
         [("hss", ⟨(60, 80), (0.1, 0.2), some (2, 10)⟩),
          ("hss-co", ⟨(70, 90), (0.15, 0.25), some (2, 12)⟩),
          ("твердый_сплав", ⟨(100, 150), (0.2, 0.3), some (2, 15)⟩)]),
       ("со_сменными_пластинами", .subtypes
         [("карбид", ⟨(100, 150), (0.2, 0.3), some (2, 15)⟩)])])])]

/-- The entries stored under one tool-type node. -/
def ToolNode.entries : ToolNode → List Entry
  | .subtypes m => m.map Prod.snd
  | .dims _ m => m.map Prod.snd

/-- All catalog entries, i.e. the entries reachable through a complete
(material, operation, tool type, subtype-or-dimension) path of
`cutting_parameters`. -/
def allEntries : List Entry :=
  cutting_parameters.flatMap fun p =>
    p.2.flatMap fun q => q.2.flatMap fun r => r.2.entries

/-- `min ≤ max` for every range present in an entry. -/
def entryWF (e : Entry) : Bool :=
  e.speed.1 ≤ e.speed.2 && e.feed.1 ≤ e.feed.2 &&
    (match e.depth with
     | some p => p.1 ≤ p.2
     | none => true)

/-- `calculate_overlap` (`bot.py` lines 103-116): stepover/overlap percent from
the depth-of-cut-to-diameter ratio; `None` past `2 * diameter`. -/
def calculate_overlap (diameter depth_of_cut : ℚ) : Option ℕ :=
  if depth_of_cut ≤ 0.3 * diameter then some 100
  else if depth_of_cut ≤ 0.5 * diameter then some 70
  else if depth_of_cut ≤ 0.7 * diameter then some 50
  else if depth_of_cut ≤ diameter then some 30
  else if depth_of_cut ≤ 2 * diameter then some 10
  else none

/-- The argument handed to `math.sqrt` in the ball-nose branch of
`calculate_cutting_width` (`bot.py` lines 94-101). -/
def cutting_width_arg (diameter depth_of_cut : ℚ) : ℚ :=
  depth_of_cut * (diameter - depth_of_cut)

/-- Whether the call `calculate_cutting_width(diameter, depth_of_cut, tool_subtype)`
raises: `math.sqrt` raises `ValueError` ("math domain error") exactly on a
negative argument, and only the `'сферическая'` (ball-nose) branch of
`calculate_cutting_width` calls `math.sqrt`. -/
def calculate_cutting_width_raises (diameter depth_of_cut : ℚ)
    (tool_subtype : String) : Bool :=
  tool_subtype == "сферическая" && cutting_width_arg diameter depth_of_cut < 0

/-- The value of `calculate_cutting_width` (`bot.py` lines 94-101) on the inputs
where it does not raise (see `calculate_cutting_width_raises`): `0.5 * diameter`
for the cylindrical cutter, `2 * math.sqrt(depth_of_cut * (diameter - depth_of_cut))`
for the ball-nose cutter, `None` for every other subtype. -/
noncomputable def calculate_cutting_width (diameter depth_of_cut : ℚ)
    (tool_subtype : String) : Option ℝ :=
  if tool_subtype = "цилиндрическая" then some (0.5 * (diameter : ℝ))
  else if tool_subtype = "сферическая" then
    some (2 * Real.sqrt ((depth_of_cut : ℝ) * ((diameter : ℝ) - (depth_of_cut : ℝ))))
  else none

/-- Python `str.lower` on one character, restricted to the alphabets occurring
in the bot's catalog keys and inputs: ASCII `A`-`Z` and Cyrillic `А`-`Я`
(U+0410-U+042F, lowered by adding 32 code points, exactly as `str.lower` maps
them) together with `Ё` (U+0401 → U+0451). Other characters are unchanged. -/
def pyLowerChar (c : Char) : Char :=
  if 'A' ≤ c ∧ c ≤ 'Z' then Char.ofNat (c.toNat + 32)
  else if 'А' ≤ c ∧ c ≤ 'Я' then Char.ofNat (c.toNat + 32)
  else if c = 'Ё' then 'ё' else c

/-- Python `str.lower`, character by character (see `pyLowerChar`). -/
def pyLower (s : String) : String :=
  String.mk (s.toList.map pyLowerChar)

/-- `text.replace(',', '.')`: a one-character pattern replace is a map over the
characters. -/
def replaceComma (s : String) : String :=
  String.mk (s.toList.map fun c => if c = ',' then '.' else c)

/-- The numeric value of a digit string, most significant digit first. -/
def digitsVal (l : List Char) : ℕ :=
  l.foldl (fun acc c => 10 * acc + (c.toNat - '0'.toNat)) 0

/-- Splits a leading `-`/`+` sign off a character list; `true` means negative. -/
def splitSign : List Char → Bool × List Char
  | '-' :: r => (true, r)
  | '+' :: r => (false, r)
  | r => (false, r)

/-- Scanner for a plain decimal numeral: optional sign, integer digits,
optionally `.` and fraction digits, at least one digit overall. Returns
(negative?, integer-part value, fraction value, fraction length). -/
def floatScan (s : String) : Option (Bool × ℕ × ℕ × ℕ) :=
  let p := splitSign s.toList
  let ip := p.2.takeWhile Char.isDigit
  let rest := p.2.dropWhile Char.isDigit
  match rest with
  | [] => if ip.isEmpty then none else some (p.1, digitsVal ip, 0, 0)
  | '.' :: frac =>
    if frac.all Char.isDigit && !(ip.isEmpty && frac.isEmpty) then
      some (p.1, digitsVal ip, digitsVal frac, frac.length)
    else none
  | _ => none

/-- Modelled from Python's built-in `float(text)` as used by the numeric
handlers, on plain decimal numerals (optional sign, digits, optional `.` and
fraction digits); the exotic inputs `float` also accepts (exponents,
`inf`/`nan`, surrounding whitespace, `_` separators) are outside the model,
treated as parse failures. -/
def pyFloat (s : String) : Option ℚ :=
  (floatScan s).map fun q =>
    (if q.1 then (-1 : ℚ) else 1) * ((q.2.1 : ℚ) + (q.2.2.1 : ℚ) / 10 ^ q.2.2.2)

/-- Modelled from Python's built-in `int(text)` as used by the tooth-count
handler: optional sign and a nonempty run of digits (whitespace and `_`
separators are outside the model, treated as parse failures). -/
def pyInt (s : String) : Option ℤ :=
  let p := splitSign s.toList
  if p.2 ≠ [] ∧ p.2.all Char.isDigit then
    some ((if p.1 then (-1 : ℤ) else 1) * (digitsVal p.2 : ℤ))
  else none

/-- `float(update.message.text.replace(',', '.'))`, the parse shared by the
`diameter`, `depth_of_cut`, `radius` and `groove_width` handlers. -/
def parse_float_input (s : String) : Option ℚ :=
  pyFloat (replaceComma s)

/-- The conversation states of `bot.py` line 12, plus `END`
(`ConversationHandler.END`). -/
inductive BotState where
  | MATERIAL
  | OPERATION
  | TOOL_TYPE
  | TOOL_SUBTYPE
  | DIAMETER
  | NUMBER_OF_TEETH
  | DEPTH_OF_CUT
  | RADIUS
  | GROOVE_WIDTH
  | END
deriving DecidableEq, Repr

/-- `context.user_data`: the per-conversation dictionary of collected answers;
a missing key is `none`. -/
structure UserData where
  material : Option String
  operation : Option String
  tool_type : Option String
  tool_subtype : Option String
  diameter : Option ℚ
  number_of_teeth : Option ℤ
  depth_of_cut : Option ℚ
  radius : Option ℚ
  groove_width : Option ℚ
deriving DecidableEq, Repr

/-- The cleared `user_data` dictionary (after `context.user_data.clear()`). -/
def UserData.empty : UserData :=
  ⟨none, none, none, none, none, none, none, none, none⟩

/-- Python truthiness of an optional number: `None` and `0.0` are falsy. -/
def qTruthy : Option ℚ → Bool
  | none => false
  | some x => if x = 0 then false else true

/-- Python truthiness of an optional string: `None` and `""` are falsy. -/
def sTruthy : Option String → Bool
  | none => false
  | some s => if s = "" then false else true

/-- The structured content of the final message built by `format_result`
(`bot.py` lines 385-413). A field that is `none` is omitted from the message.
`feedPerMinute` and `spindle` store the rational coefficient `c` of the real
value `c / π`. -/
structure ResultMsg where
  material : String
  operation : String
  tool_type : String
  tool_subtype : Option String
  speed : ℚ
  feed : ℚ
  feedPerMinute : Option ℚ
  depth : Option ℚ
  width : Option ℚ
  spindle : Option ℚ
deriving DecidableEq, Repr

/-- The messages the handlers send via `reply_text`, abstracted from their
literal Russian wording; payloads record the data interpolated into the text. -/
inductive Msg where
  | startPrompt
  | chooseOperation (material : String)
  | chooseToolType (operation : String)
  | notFoundMaterial
  | notFoundOperation
  | notFoundToolType
  | chooseCutterSubtype
  | chooseDrillSubtype
  | enterGrooveWidth
  | chooseRadius (radii : List ℚ)
  | enterCutterDiameter
  | enterDrillDiameter
  | enterTeethCount
  | enterDepth
  | subtypeFlowError
  | paramsError
  | reenterDiameter
  | reenterTeeth
  | reenterDepth
  | reenterRadius
  | reenterGroove
  | radiusHeader (material operation : String) (radius : ℚ)
  | grooveHeader (material operation : String) (width : ℚ)
  | speedInfo (v : ℚ)
  | feedInfo (v : ℚ)
  | depthInfo (v : ℚ)
  | pressStart
  | result (r : ResultMsg)
  | canceled
deriving DecidableEq, Repr

/-- What one handler invocation produces: the updated `user_data`, the state it
returns to the `ConversationHandler`, and the messages it sent. -/
structure Step where
  ud : UserData
  state : BotState
  msgs : List Msg
deriving DecidableEq, Repr

/-- `start` (`bot.py` lines 118-132): clear `user_data`, prompt for the
material, return `MATERIAL`. -/
def start (_ud : UserData) : Step :=
  ⟨UserData.empty, .MATERIAL, [.startPrompt]⟩

/-- `get_cutting_parameters` (`bot.py` lines 356-383). The `try/except KeyError`
around the body is the `Option`-valued dictionary chain `node`; every
fall-through (no branch taken) and the `except` handler alike produce `None`.
In the milling and monolithic-drilling branches the looked-up node is a
`.subtypes` node for every key the guards admit, so the `.dims` case of the
`.get(tool_subtype)` match (where Python's `.get` on the one-key dimension
dictionary would return `None` for every subtype name except the dimension key
itself) is unreachable on this catalog. -/
def get_cutting_parameters (ud : UserData) : Option Entry :=
  if ¬ sTruthy ud.material ∨ ¬ sTruthy ud.operation ∨ ¬ sTruthy ud.tool_type then none
  else
    let m := ud.material.getD ""
    let op := ud.operation.getD ""
    let tt := ud.tool_type.getD ""
    let node := (alookup cutting_parameters m).bind fun mt =>
      (alookup mt op).bind fun ot => alookup ot tt
    if op = "фрезерование" then
      if (tt = "монолитная" ∨ tt = "с_пластинами") ∧ sTruthy ud.tool_subtype then
        match node with
        | some (.subtypes sm) => alookup sm (ud.tool_subtype.getD "")
        | _ => none
      else none
    else if op = "точение" then
      if tt = "проходной" ∧ qTruthy ud.radius then
        match node with
        | some (.dims k dm) =>
          if k = "радиус_пластины" then alookup dm (ud.radius.getD 0) else none
        | _ => none
      else if tt = "канавочный" ∧ qTruthy ud.groove_width then
        match node with
        | some (.dims k dm) =>
          if k = "ширина_пластины" then alookup dm (ud.groove_width.getD 0) else none
        | _ => none
      else none
    else if op = "сверление" then
      if tt = "монолитное" ∧ sTruthy ud.tool_subtype then
        match node with
        | some (.subtypes sm) => alookup sm (ud.tool_subtype.getD "")
        | _ => none
      else if tt = "со_сменными_пластинами" then
        match node with
        | some (.subtypes sm) => alookup sm "карбид"
        | _ => none
      else none
    else none

/-- `format_result` (`bot.py` lines 385-413). The `cutting_width` parameter is
accepted but never used by the source function (the message shows
`overlap * diameter / 100` instead); `n` and `feed_per_minute` are the rational
coefficients of `value / π`, and `if n:` / `if feed_per_minute:` truthiness of
the real value `c / π` coincides with truthiness of the coefficient `c`. -/
def format_result (ud : UserData) (speed feed : ℚ) (depth n feed_per_minute : Option ℚ)
    (_cutting_width : Option ℝ) (overlap : Option ℕ) : ResultMsg :=
  { material := ud.material.getD "неизвестный материал"
    operation := ud.operation.getD "неизвестная операция"
    tool_type := ud.tool_type.getD "неизвестный тип инструмента"
    tool_subtype := if sTruthy ud.tool_subtype then ud.tool_subtype else none
    speed := speed
    feed := feed
    feedPerMinute := if qTruthy feed_per_minute then feed_per_minute else none
    depth := if ud.operation ≠ some "фрезерование" ∧ qTruthy depth then depth else none
    width :=
      match overlap, ud.diameter with
      | some o, some d => if o ≠ 0 ∧ d ≠ 0 then some ((o : ℚ) * d / 100) else none
      | _, _ => none
    spindle := if qTruthy n then n else none }

/-- `material` (`bot.py` lines 134-151): lowercase, store, then check membership
in `cutting_parameters`; an unknown material ends the conversation. -/
def material (ud : UserData) (input : String) : Step :=
  let m := pyLower input
  if m = "/start" then start ud
  else
    let ud := { ud with material := some m }
    if (alookup cutting_parameters m).isSome then
      ⟨ud, .OPERATION, [.chooseOperation m]⟩
    else
      ⟨ud, .END, [.notFoundMaterial]⟩

/-- `operation` (`bot.py` lines 153-170): lowercase, store, then check membership
in `cutting_parameters[material]`. The source subscripts
`cutting_parameters[user_data['material']]` unconditionally; in the flow the
stored material is always a valid key, so the `getD` defaults are inert. -/
def operation (ud : UserData) (input : String) : Step :=
  let op := pyLower input
  if op = "/start" then start ud
  else
    let ud := { ud with operation := some op }
    let mt := (alookup cutting_parameters (ud.material.getD "")).getD []
    if (alookup mt op).isSome then
      ⟨ud, .TOOL_TYPE, [.chooseToolType op]⟩
    else
      ⟨ud, .END, [.notFoundOperation]⟩

/-- `tool_type` (`bot.py` lines 172-220). The `⟨ud, .TOOL_TYPE, []⟩` legs model
the handler falling off the end of the `if` ladder and returning `None`, on
which `ConversationHandler` keeps the current state; they are unreachable for
the actual catalog keys. -/
def tool_type (ud : UserData) (input : String) : Step :=
  let tt := pyLower input
  if tt = "/start" then start ud
  else
    let ud := { ud with tool_type := some tt }
    let m := ud.material.getD ""
    let op := ud.operation.getD ""
    let opTable := (alookup ((alookup cutting_parameters m).getD []) op).getD []
    if (alookup opTable tt).isSome then
      if op = "фрезерование" then
        if tt = "монолитная" ∨ tt = "с_пластинами" then
          ⟨ud, .TOOL_SUBTYPE, [.chooseCutterSubtype]⟩
        else ⟨ud, .TOOL_TYPE, []⟩
      else if op = "точение" then
        if tt = "канавочный" then ⟨ud, .GROOVE_WIDTH, [.enterGrooveWidth]⟩
        else if tt = "проходной" then
          let radii :=
            match alookup opTable tt with
            | some (.dims _ dm) => dm.map Prod.fst
            | _ => []
          ⟨ud, .RADIUS, [.chooseRadius radii]⟩
        else ⟨ud, .TOOL_TYPE, []⟩
      else if op = "сверление" then
        if tt = "монолитное" then ⟨ud, .TOOL_SUBTYPE, [.chooseDrillSubtype]⟩
        else ⟨ud, .DIAMETER, [.enterDrillDiameter]⟩
      else ⟨ud, .TOOL_TYPE, []⟩
    else ⟨ud, .END, [.notFoundToolType]⟩

/-- `tool_subtype` (`bot.py` lines 222-236): store the lowercased subtype
without validating it against the catalog, then prompt for the diameter. -/
def tool_subtype (ud : UserData) (input : String) : Step :=
  let st := pyLower input
  if st = "/start" then start ud
  else
    let ud := { ud with tool_subtype := some st }
    if ud.operation = some "фрезерование" then ⟨ud, .DIAMETER, [.enterCutterDiameter]⟩
    else if ud.operation = some "сверление" then ⟨ud, .DIAMETER, [.enterDrillDiameter]⟩
    else ⟨ud, .END, [.subtypeFlowError]⟩

/-- `diameter` (`bot.py` lines 238-263). On the drilling path, `n` is
`1000 * speed / (π * diameter)`, carried as the coefficient
`1000 * speed / diameter` of `1 / π`. (At `diameter = 0.0` the source would
raise an uncaught `ZeroDivisionError`; Lean's total `/` makes the coefficient
`0` there. No claim touches that input.) -/
def diameter (ud : UserData) (input : String) : Step :=
  match parse_float_input input with
  | none => ⟨ud, .DIAMETER, [.reenterDiameter]⟩
  | some d =>
    let ud := { ud with diameter := some d }
    if ud.operation = some "фрезерование" then ⟨ud, .NUMBER_OF_TEETH, [.enterTeethCount]⟩
    else if ud.operation = some "сверление" then
      match get_cutting_parameters ud with
      | none => ⟨ud, .END, [.paramsError]⟩
      | some params =>
        let recommended_speed := (params.speed.1 + params.speed.2) / 2
        let recommended_feed := (params.feed.1 + params.feed.2) / 2
        let n := 1000 * recommended_speed / d
        let feed_per_minute := recommended_feed * n
        ⟨ud, .END, [.result (format_result ud recommended_speed recommended_feed
          none (some n) (some feed_per_minute) none none)]⟩
    else ⟨ud, .DEPTH_OF_CUT, [.enterDepth]⟩

/-- `number_of_teeth` (`bot.py` lines 265-274). -/
def number_of_teeth (ud : UserData) (input : String) : Step :=
  match pyInt input with
  | none => ⟨ud, .NUMBER_OF_TEETH, [.reenterTeeth]⟩
  | some k =>
    let ud := { ud with number_of_teeth := some k }
    ⟨ud, .DEPTH_OF_CUT, [.enterDepth]⟩

/-- `depth_of_cut` (`bot.py` lines 276-311). The whole body sits in
`try: ... except ValueError:`; besides the `float(...)` parse, the only
statement that can raise `ValueError` is the `math.sqrt` inside
`calculate_cutting_width` (see `calculate_cutting_width_raises`), guarded by
`if diameter and tool_subtype:`. When it raises, the `except` clause sends the
re-enter-depth message and returns `DEPTH_OF_CUT` with `user_data` already
holding the stored depth. The computed `cutting_width` value is passed to
`format_result`, which ignores it; it is passed as `none` here. -/
def depth_of_cut (ud : UserData) (input : String) : Step :=
  match parse_float_input input with
  | none => ⟨ud, .DEPTH_OF_CUT, [.reenterDepth]⟩
  | some a =>
    let ud := { ud with depth_of_cut := some a }
    match get_cutting_parameters ud with
    | none => ⟨ud, .END, [.paramsError]⟩
    | some params =>
      if qTruthy ud.diameter ∧ sTruthy ud.tool_subtype ∧
          calculate_cutting_width_raises (ud.diameter.getD 0) a (ud.tool_subtype.getD "") then
        ⟨ud, .DEPTH_OF_CUT, [.reenterDepth]⟩
      else
        let overlap := if qTruthy ud.diameter then
          calculate_overlap (ud.diameter.getD 0) a else none
        let recommended_speed := (params.speed.1 + params.speed.2) / 2
        let recommended_feed := (params.feed.1 + params.feed.2) / 2
        let recommended_depth := params.depth.map fun p => (p.1 + p.2) / 2
        let n := if qTruthy ud.diameter then
          some (1000 * recommended_speed / ud.diameter.getD 0) else none
        let feed_per_minute := if qTruthy n then
          n.map fun c => recommended_feed * c else none
        ⟨ud, .END, [.result (format_result ud recommended_speed recommended_feed
          recommended_depth n feed_per_minute none overlap)]⟩

/-- `radius` (`bot.py` lines 313-334). -/
def radius (ud : UserData) (input : String) : Step :=
  match parse_float_input input with
  | none => ⟨ud, .RADIUS, [.reenterRadius]⟩
  | some r =>
    let ud := { ud with radius := some r }
    match get_cutting_parameters ud with
    | none => ⟨ud, .END, [.paramsError]⟩
    | some params =>
      let recommended_speed := (params.speed.1 + params.speed.2) / 2
      let recommended_feed := (params.feed.1 + params.feed.2) / 2
      let recommended_depth := params.depth.map fun p => (p.1 + p.2) / 2
      ⟨ud, .END,
        [.radiusHeader (ud.material.getD "") (ud.operation.getD "") r,
         .speedInfo recommended_speed, .feedInfo recommended_feed] ++
        (match recommended_depth with
         | some dv => if dv = 0 then [] else [.depthInfo dv]
         | none => []) ++ [.pressStart]⟩

/-- `groove_width` (`bot.py` lines 336-354). -/
def groove_width (ud : UserData) (input : String) : Step :=
  match parse_float_input input with
  | none => ⟨ud, .GROOVE_WIDTH, [.reenterGroove]⟩
  | some w =>
    let ud := { ud with groove_width := some w }
    match get_cutting_parameters ud with
    | none => ⟨ud, .END, [.paramsError]⟩
    | some params =>
      let recommended_speed := (params.speed.1 + params.speed.2) / 2
      let recommended_feed := (params.feed.1 + params.feed.2) / 2
      ⟨ud, .END,
        [.grooveHeader (ud.material.getD "") (ud.operation.getD "") w,
         .speedInfo recommended_speed, .feedInfo recommended_feed, .pressStart]⟩

/-- `cancel` (`bot.py` lines 415-420): does not clear `user_data`. -/
def cancel (ud : UserData) : Step :=
  ⟨ud, .END, [.canceled]⟩

/-- Whether a message is a bot command (`Filters.command`: text starting
with `/`). -/
def isCommand (s : String) : Bool :=
  match s.toList with
  | '/' :: _ => true
  | _ => false

/-- The `ConversationHandler` dispatch of `main` (`bot.py` lines 427-441):
every per-state handler is registered under `Filters.text & ~Filters.command`,
so a command never reaches them; `/start` is both the entry point and a
fallback `CommandHandler` and fires in every state (triggering `start`),
`/cancel` is a fallback, and any other command matches no handler (the update
is dropped, the state is unchanged). -/
def advance (st : BotState) (ud : UserData) (input : String) : Step :=
  if input = "/start" then start ud
  else if input = "/cancel" then cancel ud
  else if isCommand input then ⟨ud, st, []⟩
  else
    match st with
    | .MATERIAL => material ud input
    | .OPERATION => operation ud input
    | .TOOL_TYPE => tool_type ud input
    | .TOOL_SUBTYPE => tool_subtype ud input
    | .DIAMETER => diameter ud input
    | .NUMBER_OF_TEETH => number_of_teeth ud input
    | .DEPTH_OF_CUT => depth_of_cut ud input
    | .RADIUS => radius ud input
    | .GROOVE_WIDTH => groove_width ud input
    | .END => ⟨ud, .END, []⟩

/-- Feeding a list of plain text inputs through `advance`, one at a time. -/
def runInputs (s : Step) (inputs : List String) : Step :=
  inputs.foldl (fun acc i => advance acc.state acc.ud i) s

/-- Any value returned by `alookup` is one of the stored values. -/
theorem alookup_mem {α β : Type} [DecidableEq α] (l : List (α × β)) (k : α) (b : β)
    (h : alookup l k = some b) : b ∈ l.map Prod.snd := by
  induction l with
  | nil => simp [alookup] at h
  | cons p rest ih =>
    obtain ⟨pk, pv⟩ := p
    rw [alookup] at h
    by_cases hk : k = pk
    · simp [hk] at h
      simp [h]
    · simp [hk] at h
      exact List.mem_cons_of_mem _ (ih h)

/-- C1: for every diameter `D > 0` and depth of cut `a`, `calculate_overlap` is
the piecewise table with thresholds inclusive on the upper bound —
`a ≤ 0.3 D ↦ 100`, `a ≤ 0.5 D ↦ 70`, `a ≤ 0.7 D ↦ 50`, `a ≤ D ↦ 30`,
`a ≤ 2 D ↦ 10`, and undefined (`none`) past `2 D` — and at `D = 10` the depths
3, 5, 7, 10, 20, 21 give 100, 70, 50, 30, 10, undefined. -/
theorem c1_overlap_piecewise :
    (∀ D a : ℚ, 0 < D →
      (a ≤ 0.3 * D → calculate_overlap D a = some 100) ∧
      (0.3 * D < a → a ≤ 0.5 * D → calculate_overlap D a = some 70) ∧
      (0.5 * D < a → a ≤ 0.7 * D → calculate_overlap D a = some 50) ∧
      (0.7 * D < a → a ≤ D → calculate_overlap D a = some 30) ∧
      (D < a → a ≤ 2 * D → calculate_overlap D a = some 10) ∧
      (2 * D < a → calculate_overlap D a = none)) ∧
    calculate_overlap 10 3 = some 100 ∧ calculate_overlap 10 5 = some 70 ∧
    calculate_overlap 10 7 = some 50 ∧ calculate_overlap 10 10 = some 30 ∧
    calculate_overlap 10 20 = some 10 ∧ calculate_overlap 10 21 = none := by
  refine ⟨fun D a hD => ⟨?_, ?_, ?_, ?_, ?_, ?_⟩, ?_, ?_, ?_, ?_, ?_, ?_⟩
  · intro h; rw [calculate_overlap, if_pos h]
  · intro h1 h2
    rw [calculate_overlap, if_neg (by linarith), if_pos h2]
  · intro h1 h2
    rw [calculate_overlap, if_neg (by linarith), if_neg (by linarith), if_pos h2]
  · intro h1 h2
    rw [calculate_overlap, if_neg (by linarith), if_neg (by linarith),
      if_neg (by linarith), if_pos h2]
  · intro h1 h2
    rw [calculate_overlap, if_neg (by linarith), if_neg (by linarith),
      if_neg (by linarith), if_neg (by linarith), if_pos h2]
  · intro h1
    rw [calculate_overlap, if_neg (by linarith), if_neg (by linarith),
      if_neg (by linarith), if_neg (by linarith), if_neg (by linarith)]
  all_goals norm_num [calculate_overlap]

theorem c1_overlap_witness : calculate_overlap 10 4 = some 70 :=
  (c1_overlap_piecewise.1 10 4 (by norm_num)).2.1 (by norm_num) (by norm_num)

/-- C2: with `0 ≤ a ≤ D`, the ball-nose cutting width is
`2 * sqrt(a * (D - a))` (and the call does not raise); the cylindrical subtype
gives `0.5 * D`; other subtypes give `None`; and concretely `D = 10, a = 2`
gives `8.0` while `D = 10, a = 10` gives `0.0`. -/
theorem c2_cutting_width :
    (∀ D a : ℚ, 0 ≤ a → a ≤ D →
      calculate_cutting_width D a "сферическая" =
        some (2 * Real.sqrt ((a : ℝ) * ((D : ℝ) - (a : ℝ)))) ∧
      calculate_cutting_width_raises D a "сферическая" = false) ∧
    (∀ D a : ℚ, calculate_cutting_width D a "цилиндрическая" = some (0.5 * (D : ℝ))) ∧
    (∀ (D a : ℚ) (s : String), s ≠ "цилиндрическая" → s ≠ "сферическая" →
      calculate_cutting_width D a s = none) ∧
    calculate_cutting_width 10 2 "сферическая" = some 8 ∧
    calculate_cutting_width 10 10 "сферическая" = some 0 := by
  refine ⟨fun D a h0 hD => ⟨?_, ?_⟩, fun D a => ?_, fun D a s h1 h2 => ?_, ?_, ?_⟩
  · simp [calculate_cutting_width]
  · have harg : 0 ≤ cutting_width_arg D a := by
      have : (0 : ℚ) ≤ D - a := by linarith
      exact mul_nonneg h0 this
    simp [calculate_cutting_width_raises, not_lt.mpr harg]
  · simp [calculate_cutting_width]
  · simp [calculate_cutting_width, h1, h2]
  · have h4 : Real.sqrt (((2 : ℚ) : ℝ) * (((10 : ℚ) : ℝ) - ((2 : ℚ) : ℝ))) = 4 := by
      rw [show ((2 : ℚ) : ℝ) * (((10 : ℚ) : ℝ) - ((2 : ℚ) : ℝ)) = 4 ^ 2 by norm_num]
      exact Real.sqrt_sq (by norm_num)
    rw [calculate_cutting_width, if_neg (by decide), if_pos rfl, h4]
    norm_num
  · have h0 : ((10 : ℚ) : ℝ) * (((10 : ℚ) : ℝ) - ((10 : ℚ) : ℝ)) = 0 := by norm_num
    simp [calculate_cutting_width, h0, Real.sqrt_zero]

theorem c2_cutting_width_witness :
    calculate_cutting_width_raises 10 2 "сферическая" = false :=
  (c2_cutting_width.1 10 2 (by norm_num) (by norm_num)).2

/-- C7: from every conversation state and every session content, the `/start`
restart signal clears `user_data` to empty and returns the initial
await-material state. -/
theorem c7_restart_resets (st : BotState) (ud : UserData) :
    advance st ud "/start" = ⟨UserData.empty, .MATERIAL, [.startPrompt]⟩ := by
  simp [advance, start]

/-- C9: every entry reachable through a complete catalog path has `min ≤ max`
for each range it contains (speed, feed, and depth when present). -/
theorem c9_catalog_ranges_wf : allEntries.all entryWF = true := by
  simp only [allEntries, cutting_parameters, ToolNode.entries, entryWF,
    List.flatMap_cons, List.flatMap_nil, List.map_cons, List.map_nil,
    List.append_nil, List.all_cons, List.all_nil, List.append_assoc,
    List.all_append, List.cons_append, List.nil_append]
  norm_num

/-- C4: at each enum-valued prompt (material, operation, tool type) the input is
lowercased and compared against the catalog keys at the current path; a
non-matching input stores the value and ends the conversation with the
terminal "not found" message instead of re-prompting, while an uppercase
spelling of a valid key advances. -/
theorem c4_enum_not_found :
    (∀ (ud : UserData) (s : String), pyLower s ≠ "/start" →
      alookup cutting_parameters (pyLower s) = none →
      material ud s = ⟨{ ud with material := some (pyLower s) }, .END, [.notFoundMaterial]⟩) ∧
    (∀ (ud : UserData) (s : String), pyLower s ≠ "/start" →
      alookup ((alookup cutting_parameters (ud.material.getD "")).getD []) (pyLower s) = none →
      operation ud s = ⟨{ ud with operation := some (pyLower s) }, .END, [.notFoundOperation]⟩) ∧
    (∀ (ud : UserData) (s : String), pyLower s ≠ "/start" →
      alookup ((alookup ((alookup cutting_parameters (ud.material.getD "")).getD [])
          (ud.operation.getD "")).getD []) (pyLower s) = none →
      tool_type ud s = ⟨{ ud with tool_type := some (pyLower s) }, .END, [.notFoundToolType]⟩) ∧
    (advance .MATERIAL UserData.empty "СТАЛЬ").state = .OPERATION ∧
    pyLower "СТАЛЬ" = "сталь" := by
  refine ⟨fun ud s h1 h2 => ?_, fun ud s h1 h2 => ?_, fun ud s h1 h2 => ?_, ?_, ?_⟩
  · simp [material, h1, h2]
  · simp [operation, h1, h2]
  · simp [tool_type, h1, h2]
  · decide
  · decide

theorem c4_enum_not_found_witness :
    material UserData.empty "wood" =
      ⟨{ UserData.empty with material := some (pyLower "wood") }, .END, [.notFoundMaterial]⟩ :=
  c4_enum_not_found.1 UserData.empty "wood" (by decide) (by decide)

/-- C6: both `"1,5"` and `"1.5"` parse to the value `1.5`, and at each of the
four numeric prompts a parse failure re-prompts for the same state with the
session unchanged (neither advancing nor ending the conversation). -/
theorem c6_numeric_prompts :
    parse_float_input "1,5" = some 1.5 ∧ parse_float_input "1.5" = some 1.5 ∧
    (∀ (ud : UserData) (s : String), parse_float_input s = none →
      diameter ud s = ⟨ud, .DIAMETER, [.reenterDiameter]⟩ ∧
      depth_of_cut ud s = ⟨ud, .DEPTH_OF_CUT, [.reenterDepth]⟩ ∧
      radius ud s = ⟨ud, .RADIUS, [.reenterRadius]⟩ ∧
      groove_width ud s = ⟨ud, .GROOVE_WIDTH, [.reenterGroove]⟩) := by
  refine ⟨?_, ?_, fun ud s h => ⟨?_, ?_, ?_, ?_⟩⟩
  · have hs : floatScan (replaceComma "1,5") = some (false, 1, 5, 1) := by decide
    simp [parse_float_input, pyFloat, hs]
    norm_num
  · have hs : floatScan (replaceComma "1.5") = some (false, 1, 5, 1) := by decide
    simp [parse_float_input, pyFloat, hs]
    norm_num
  · simp [diameter, h]
  · simp [depth_of_cut, h]
  · simp [radius, h]
  · simp [groove_width, h]

theorem c6_numeric_prompts_witness :
    diameter UserData.empty "abc" = ⟨UserData.empty, .DIAMETER, [.reenterDiameter]⟩ :=
  (c6_numeric_prompts.2.2 UserData.empty "abc" (by decide)).1

/-- C8: on the turning paths the lookup is keyed by insert radius (profiling)
or insert width (grooving) and requires an exact match against the discrete
catalog keys: any parsed value outside {0.4, 0.8, 1.2} (radius) or {2, 3, 4}
(width) makes `get_cutting_parameters` return `None`, which the handler maps to
the terminal "no data" message; an exact key (steel, radius 0.4) returns that
entry's recommendation. -/
theorem c8_turning_exact_match :
    (∀ (ud : UserData) (s : String) (r : ℚ), parse_float_input s = some r →
      ud.material = some "сталь" ∨ ud.material = some "цветной_металл" →
      ud.operation = some "точение" → ud.tool_type = some "проходной" →
      r ≠ 0.4 → r ≠ 0.8 → r ≠ 1.2 →
      radius ud s = ⟨{ ud with radius := some r }, .END, [.paramsError]⟩) ∧
    (∀ (ud : UserData) (s : String) (w : ℚ), parse_float_input s = some w →
      ud.material = some "сталь" ∨ ud.material = some "цветной_металл" →
      ud.operation = some "точение" → ud.tool_type = some "канавочный" →
      w ≠ 2.0 → w ≠ 3.0 → w ≠ 4.0 →
      groove_width ud s = ⟨{ ud with groove_width := some w }, .END, [.paramsError]⟩) ∧
    radius ⟨some "сталь", some "точение", some "проходной", none, none, none, none, none, none⟩
        "0.4" =
      ⟨⟨some "сталь", some "точение", some "проходной", none, none, none, none, some 0.4, none⟩,
       .END,
       [.radiusHeader "сталь" "точение" 0.4, .speedInfo 85, .feedInfo 0.2,
        .depthInfo 3, .pressStart]⟩ := by
  refine ⟨fun ud s r hp hm hop htt h1 h2 h3 => ?_, fun ud s w hp hm hop htt h1 h2 h3 => ?_, ?_⟩
  · by_cases hr : r = 0
    · rcases hm with hm | hm <;>
        simp [radius, hp, get_cutting_parameters, hm, hop, htt, sTruthy, qTruthy, hr]
    · rcases hm with hm | hm <;>
        simp [radius, hp, get_cutting_parameters, hm, hop, htt, sTruthy, qTruthy, hr,
          cutting_parameters, alookup, h1, h2, h3]
  · by_cases hw : w = 0
    · rcases hm with hm | hm <;>
        simp [groove_width, hp, get_cutting_parameters, hm, hop, htt, sTruthy, qTruthy, hw]
    · rcases hm with hm | hm <;>
        simp [groove_width, hp, get_cutting_parameters, hm, hop, htt, sTruthy, qTruthy, hw,
          cutting_parameters, alookup, h1, h2, h3]
  · have hp : parse_float_input "0.4" = some 0.4 := by
      have hs : floatScan (replaceComma "0.4") = some (false, 0, 4, 1) := by decide
      simp [parse_float_input, pyFloat, hs]
      norm_num
    simp [radius, hp, get_cutting_parameters, sTruthy, qTruthy, cutting_parameters, alookup]
    norm_num

theorem c8_turning_exact_match_witness :
    radius ⟨some "сталь", some "точение", some "проходной", none, none, none, none, none, none⟩
        "0.5" =
      ⟨⟨some "сталь", some "точение", some "проходной", none, none, none, none, some 0.5, none⟩,
       .END, [.paramsError]⟩ := by
  have hp : parse_float_input "0.5" = some 0.5 := by
    have hs : floatScan (replaceComma "0.5") = some (false, 0, 5, 1) := by decide
    simp [parse_float_input, pyFloat, hs]
    norm_num
  exact c8_turning_exact_match.1 _ "0.5" 0.5 hp (Or.inl rfl) rfl rfl
    (by norm_num) (by norm_num) (by norm_num)

/-- The steel / drilling / monolithic / carbide / diameter-10 conversation of
the end-to-end scenario, run step by step through `advance`. The spindle-speed
coefficient is `1000 * 85 / 10 = 8500` (value `8500 / π` RPM) and the
feed-per-minute coefficient is `0.15 * 8500 = 1275` (value `1275 / π`). -/
theorem drilling_run_steel_carbide :
    runInputs ⟨UserData.empty, .MATERIAL, [.startPrompt]⟩
        ["сталь", "сверление", "монолитное", "твердый_сплав", "10"] =
      ⟨⟨some "сталь", some "сверление", some "монолитное", some "твердый_сплав",
        some 10, none, none, none, none⟩, .END,
       [.result ⟨"сталь", "сверление", "монолитное", some "твердый_сплав",
         85, 0.15, some 1275, none, none, some 8500⟩]⟩ := by
  have h1 : advance .MATERIAL UserData.empty "сталь" =
      ⟨⟨some "сталь", none, none, none, none, none, none, none, none⟩, .OPERATION,
       [.chooseOperation "сталь"]⟩ := by decide
  have h2 : advance .OPERATION
      ⟨some "сталь", none, none, none, none, none, none, none, none⟩ "сверление" =
      ⟨⟨some "сталь", some "сверление", none, none, none, none, none, none, none⟩,
       .TOOL_TYPE, [.chooseToolType "сверление"]⟩ := by decide
  have h3 : advance .TOOL_TYPE
      ⟨some "сталь", some "сверление", none, none, none, none, none, none, none⟩
      "монолитное" =
      ⟨⟨some "сталь", some "сверление", some "монолитное", none, none, none, none, none, none⟩,
       .TOOL_SUBTYPE, [.chooseDrillSubtype]⟩ := by decide
  have h4 : advance .TOOL_SUBTYPE
      ⟨some "сталь", some "сверление", some "монолитное", none, none, none, none, none, none⟩
      "твердый_сплав" =
      ⟨⟨some "сталь", some "сверление", some "монолитное", some "твердый_сплав",
        none, none, none, none, none⟩, .DIAMETER, [.enterDrillDiameter]⟩ := by decide
  have hp : parse_float_input "10" = some 10 := by
    have hs : floatScan (replaceComma "10") = some (false, 10, 0, 0) := by decide
    simp [parse_float_input, pyFloat, hs]
  have hgp : get_cutting_parameters
      ⟨some "сталь", some "сверление", some "монолитное", some "твердый_сплав",
       some 10, none, none, none, none⟩ = some ⟨(70, 100), (0.1, 0.2), some (1, 12)⟩ := by
    simp [get_cutting_parameters, sTruthy, cutting_parameters, alookup]
  have h5 : advance .DIAMETER
      ⟨some "сталь", some "сверление", some "монолитное", some "твердый_сплав",
       none, none, none, none, none⟩ "10" =
      ⟨⟨some "сталь", some "сверление", some "монолитное", some "твердый_сплав",
        some 10, none, none, none, none⟩, .END,
       [.result ⟨"сталь", "сверление", "монолитное", some "твердый_сплав",
         85, 0.15, some 1275, none, none, some 8500⟩]⟩ := by
    simp [advance, diameter, isCommand, hp, hgp, format_result, sTruthy, qTruthy]
    norm_num
  simp only [runInputs, List.foldl_cons, List.foldl_nil, h1, h2, h3, h4, h5]

/-- C5 counterexample: in the drilling scenario the feed-per-minute value is
`1275 / π ≈ 405.845`, strictly below `405.85`, so the one-decimal figure in the
terminal message is `405.8` — the message does not show the claimed `405.9`. -/
theorem c5_feed_rate_counterexample :
    (runInputs ⟨UserData.empty, .MATERIAL, [.startPrompt]⟩
        ["сталь", "сверление", "монолитное", "твердый_сплав", "10"]).msgs =
      [.result ⟨"сталь", "сверление", "монолитное", some "твердый_сплав",
        85, 0.15, some 1275, none, none, some 8500⟩] ∧
    ¬ 405.85 ≤ (1275 : ℝ) / Real.pi := by
  constructor
  · rw [drilling_run_steel_carbide]
  · intro hle
    have hπ := Real.pi_gt_3141592
    rw [le_div_iff Real.pi_pos] at hle
    nlinarith

/-- C5 (amended): for steel / drilling / monolithic carbide / diameter 10 the
terminal result appears immediately after the diameter (no depth-of-cut
prompt), with speed 85.0, feed 0.15, spindle speed `8500 / π` RPM (in
`(2705.5, 2706.5)`, displayed 2706), feed rate `1275 / π` (in
`(405.75, 405.85)`, displayed 405.8 — not 405.9), and the depth of cut
omitted. -/
theorem c5_drilling_terminal_values :
    runInputs ⟨UserData.empty, .MATERIAL, [.startPrompt]⟩
        ["сталь", "сверление", "монолитное", "твердый_сплав", "10"] =
      ⟨⟨some "сталь", some "сверление", some "монолитное", some "твердый_сплав",
        some 10, none, none, none, none⟩, .END,
       [.result ⟨"сталь", "сверление", "монолитное", some "твердый_сплав",
         85, 0.15, some 1275, none, none, some 8500⟩]⟩ ∧
    2705.5 < (8500 : ℝ) / Real.pi ∧ (8500 : ℝ) / Real.pi < 2706.5 ∧
    405.75 < (1275 : ℝ) / Real.pi ∧ (1275 : ℝ) / Real.pi < 405.85 := by
  refine ⟨drilling_run_steel_carbide, ?_, ?_, ?_, ?_⟩
  · have hπ := Real.pi_lt_3141593
    rw [lt_div_iff Real.pi_pos]
    nlinarith
  · have hπ := Real.pi_gt_3141592
    rw [div_lt_iff Real.pi_pos]
    nlinarith
  · have hπ := Real.pi_lt_3141593
    rw [lt_div_iff Real.pi_pos]
    nlinarith
  · have hπ := Real.pi_gt_3141592
    rw [div_lt_iff Real.pi_pos]
    nlinarith

/-- C3 counterexample: entering depth 12 with diameter 10 on the milling
ball-nose path is not rejected before the square root — the negative argument
`12 * (10 - 12) = -24` does reach `math.sqrt`, whose `ValueError` is caught by
the handler's generic numeric `except ValueError` clause, so the conversation
re-prompts the depth-of-cut state with the "enter a numeric value" message
instead of terminating with a `DomainError` explanation. -/
theorem c3_domain_error_counterexample :
    runInputs ⟨UserData.empty, .MATERIAL, [.startPrompt]⟩
        ["сталь", "фрезерование", "монолитная", "сферическая", "10", "2", "12"] =
      ⟨⟨some "сталь", some "фрезерование", some "монолитная", some "сферическая",
        some 10, some 2, some 12, none, none⟩, .DEPTH_OF_CUT, [.reenterDepth]⟩ ∧
    calculate_cutting_width_raises 10 12 "сферическая" = true := by
  constructor
  · have h1 : advance .MATERIAL UserData.empty "сталь" =
        ⟨⟨some "сталь", none, none, none, none, none, none, none, none⟩, .OPERATION,
         [.chooseOperation "сталь"]⟩ := by decide
    have h2 : advance .OPERATION
        ⟨some "сталь", none, none, none, none, none, none, none, none⟩ "фрезерование" =
        ⟨⟨some "сталь", some "фрезерование", none, none, none, none, none, none, none⟩,
         .TOOL_TYPE, [.chooseToolType "фрезерование"]⟩ := by decide
    have h3 : advance .TOOL_TYPE
        ⟨some "сталь", some "фрезерование", none, none, none, none, none, none, none⟩
        "монолитная" =
        ⟨⟨some "сталь", some "фрезерование", some "монолитная", none, none, none, none,
          none, none⟩, .TOOL_SUBTYPE, [.chooseCutterSubtype]⟩ := by decide
    have h4 : advance .TOOL_SUBTYPE
        ⟨some "сталь", some "фрезерование", some "монолитная", none, none, none, none,
         none, none⟩ "сферическая" =
        ⟨⟨some "сталь", some "фрезерование", some "монолитная", some "сферическая",
          none, none, none, none, none⟩, .DIAMETER, [.enterCutterDiameter]⟩ := by decide
    have hp10 : parse_float_input "10" = some 10 := by
      have hs : floatScan (replaceComma "10") = some (false, 10, 0, 0) := by decide
      simp [parse_float_input, pyFloat, hs]
    have h5 : advance .DIAMETER
        ⟨some "сталь", some "фрезерование", some "монолитная", some "сферическая",
         none, none, none, none, none⟩ "10" =
        ⟨⟨some "сталь", some "фрезерование", some "монолитная", some "сферическая",
          some 10, none, none, none, none⟩, .NUMBER_OF_TEETH, [.enterTeethCount]⟩ := by
      simp [advance, diameter, isCommand, hp10]
    have h6 : advance .NUMBER_OF_TEETH
        ⟨some "сталь", some "фрезерование", some "монолитная", some "сферическая",
         some 10, none, none, none, none⟩ "2" =
        ⟨⟨some "сталь", some "фрезерование", some "монолитная", some "сферическая",
          some 10, some 2, none, none, none⟩, .DEPTH_OF_CUT, [.enterDepth]⟩ := by
      have hi : pyInt "2" = some 2 := by decide
      simp [advance, number_of_teeth, isCommand, hi]
    have hp12 : parse_float_input "12" = some 12 := by
      have hs : floatScan (replaceComma "12") = some (false, 12, 0, 0) := by decide
      simp [parse_float_input, pyFloat, hs]
    have hgp : get_cutting_parameters
        ⟨some "сталь", some "фрезерование", some "монолитная", some "сферическая",
         some 10, some 2, some 12, none, none⟩ =
        some ⟨(70, 110), (0.08, 0.25), some (1, 3)⟩ := by
      simp [get_cutting_parameters, sTruthy, cutting_parameters, alookup]
    have hraise : calculate_cutting_width_raises 10 12 "сферическая" = true := by
      simp [calculate_cutting_width_raises, cutting_width_arg] <;> norm_num
    have h7 : advance .DEPTH_OF_CUT
        ⟨some "сталь", some "фрезерование", some "монолитная", some "сферическая",
         some 10, some 2, none, none, none⟩ "12" =
        ⟨⟨some "сталь", some "фрезерование", some "монолитная", some "сферическая",
          some 10, some 2, some 12, none, none⟩, .DEPTH_OF_CUT, [.reenterDepth]⟩ := by
      simp [advance, depth_of_cut, isCommand, hp12, hgp, hraise, sTruthy, qTruthy]
    simp only [runInputs, List.foldl_cons, List.foldl_nil, h1, h2, h3, h4, h5, h6, h7]
  · simp [calculate_cutting_width_raises, cutting_width_arg] <;> norm_num

/-- C3 (amended): when the entered depth of cut makes the ball-nose square-root
argument negative (in particular depth 12 against diameter 10), the error is
raised inside `math.sqrt` — not rejected beforehand as a `DomainError` — and is
caught at the point of occurrence by the handler's `except ValueError` clause:
the conversation re-prompts the depth-of-cut state with the numeric-input
message, and no error propagates as process-fatal. -/
theorem c3_ball_nose_sqrt_recovery :
    ∀ (ud : UserData) (s : String) (a : ℚ), parse_float_input s = some a →
      ud.tool_subtype = some "сферическая" →
      qTruthy ud.diameter = true →
      calculate_cutting_width_raises (ud.diameter.getD 0) a "сферическая" = true →
      get_cutting_parameters { ud with depth_of_cut := some a } ≠ none →
      depth_of_cut ud s =
        ⟨{ ud with depth_of_cut := some a }, .DEPTH_OF_CUT, [.reenterDepth]⟩ := by
  intro ud s a hp hsub hdia hraise hgp
  rcases hparams : get_cutting_parameters { ud with depth_of_cut := some a } with _ | params
  · exact absurd hparams hgp
  · simp only [hsub] at hparams
    simp [depth_of_cut, hp, hparams, hsub, hdia, hraise, sTruthy]

theorem c3_ball_nose_sqrt_recovery_witness :
    depth_of_cut
        ⟨some "сталь", some "фрезерование", some "монолитная", some "сферическая",
         some 10, some 2, none, none, none⟩ "12" =
      ⟨⟨some "сталь", some "фрезерование", some "монолитная", some "сферическая",
        some 10, some 2, some 12, none, none⟩, .DEPTH_OF_CUT, [.reenterDepth]⟩ := by
  have hp : parse_float_input "12" = some 12 := by
    have hs : floatScan (replaceComma "12") = some (false, 12, 0, 0) := by decide
    simp [parse_float_input, pyFloat, hs]
  have hraise : calculate_cutting_width_raises 10 12 "сферическая" = true := by
    simp [calculate_cutting_width_raises, cutting_width_arg] <;> norm_num
  have hgp : get_cutting_parameters
      ⟨some "сталь", some "фрезерование", some "монолитная", some "сферическая",
       some 10, some 2, some 12, none, none⟩ ≠ none := by
    simp [get_cutting_parameters, sTruthy, cutting_parameters, alookup]
  exact c3_ball_nose_sqrt_recovery
    ⟨some "сталь", some "фрезерование", some "монолитная", some "сферическая",
     some 10, some 2, none, none, none⟩ "12" 12 hp rfl (by norm_num [qTruthy]) hraise hgp

/-- Any tool node reachable through the material → operation → tool-type
dictionary chain stores only entries of `allEntries`. -/
theorem chain_entries_sub (m op tt : String) (node : ToolNode)
    (h : (alookup cutting_parameters m).bind
      (fun mt => (alookup mt op).bind fun ot => alookup ot tt) = some node) :
    ∀ e ∈ node.entries, e ∈ allEntries := by
  rcases hmt : alookup cutting_parameters m with _ | mt
  · rw [hmt] at h; exact absurd h (by simp)
  · rw [hmt] at h
    simp only [Option.some_bind] at h
    rcases hot : alookup mt op with _ | ot
    · rw [hot] at h; exact absurd h (by simp)
    · rw [hot] at h
      simp only [Option.some_bind] at h
      have h1 := alookup_mem _ _ _ hmt
      have h2 := alookup_mem _ _ _ hot
      have h3 := alookup_mem _ _ _ h
      simp only [cutting_parameters, List.map_cons, List.map_nil] at h1
      fin_cases h1 <;>
        simp only [List.map_cons, List.map_nil] at h2 <;>
        fin_cases h2 <;>
        simp only [List.map_cons, List.map_nil] at h3 <;>
        fin_cases h3 <;>
        intro e he <;>
        simp only [ToolNode.entries, List.map_cons, List.map_nil, List.mem_cons,
          List.not_mem_nil, or_false] at he <;>
        rcases he with rfl | rfl | rfl <;>
        simp [allEntries, cutting_parameters, ToolNode.entries]

/-- Every entry `get_cutting_parameters` ever returns is a catalog entry. -/
theorem get_cutting_parameters_mem (ud : UserData) (e : Entry)
    (h : get_cutting_parameters ud = some e) : e ∈ allEntries := by
  simp only [get_cutting_parameters] at h
  rcases hnode : (alookup cutting_parameters (ud.material.getD "")).bind
      (fun mt => (alookup mt (ud.operation.getD "")).bind fun ot =>
        alookup ot (ud.tool_type.getD "")) with _ | n
  all_goals rw [hnode] at h
  · split_ifs at h
  · have hsub : ∀ (sm : List (String × Entry)) (key : String),
        n = ToolNode.subtypes sm → alookup sm key = some e → e ∈ allEntries := by
      intro sm key hn hl
      subst hn
      exact chain_entries_sub _ _ _ _ hnode e
        (by simpa [ToolNode.entries] using alookup_mem _ _ _ hl)
    have hdim : ∀ (k : String) (dm : List (ℚ × Entry)) (key : ℚ),
        n = ToolNode.dims k dm → alookup dm key = some e → e ∈ allEntries := by
      intro k dm key hn hl
      subst hn
      exact chain_entries_sub _ _ _ _ hnode e
        (by simpa [ToolNode.entries] using alookup_mem _ _ _ hl)
    rcases n with sm | ⟨k, dm⟩
    · split_ifs at h
      all_goals simp at h
      all_goals exact hsub _ _ rfl h
    · split_ifs at h
      all_goals simp at h
      all_goals exact hdim _ _ _ rfl h.2

/-- C10: `get_cutting_parameters` is total over all session contents — it
returns `None` whenever material, operation or tool type is missing (or empty,
the falsy strings), `None` whenever the operation or the operation/tool-type
combination matches none of its branches, and any entry it does return is a
catalog entry; the only exception its body can raise, `KeyError` from a
dictionary subscript, is caught by its `try/except` (modelled by the
`Option`-valued lookup chain), so no call raises. -/
theorem c10_get_cutting_parameters_total (ud : UserData) :
    ((¬ sTruthy ud.material ∨ ¬ sTruthy ud.operation ∨ ¬ sTruthy ud.tool_type) →
      get_cutting_parameters ud = none) ∧
    (∀ op, ud.operation = some op →
      op ∉ (["фрезерование", "точение", "сверление"] : List String) →
      get_cutting_parameters ud = none) ∧
    (∀ tt, ud.operation = some "фрезерование" → ud.tool_type = some tt →
      tt ∉ (["монолитная", "с_пластинами"] : List String) →
      get_cutting_parameters ud = none) ∧
    (∀ tt, ud.operation = some "точение" → ud.tool_type = some tt →
      tt ∉ (["проходной", "канавочный"] : List String) →
      get_cutting_parameters ud = none) ∧
    (∀ tt, ud.operation = some "сверление" → ud.tool_type = some tt →
      tt ∉ (["монолитное", "со_сменными_пластинами"] : List String) →
      get_cutting_parameters ud = none) ∧
    (∀ e, get_cutting_parameters ud = some e → e ∈ allEntries) := by
  refine ⟨fun hmiss => ?_, fun op hop hnotin => ?_, fun tt hop htt hnotin => ?_,
    fun tt hop htt hnotin => ?_, fun tt hop htt hnotin => ?_,
    fun e he => get_cutting_parameters_mem ud e he⟩
  · simp only [get_cutting_parameters, if_pos hmiss]
  · have e1 : op ≠ "фрезерование" := fun hx => hnotin (by simp [hx])
    have e2 : op ≠ "точение" := fun hx => hnotin (by simp [hx])
    have e3 : op ≠ "сверление" := fun hx => hnotin (by simp [hx])
    simp [get_cutting_parameters, hop, e1, e2, e3]
  · have e1 : tt ≠ "монолитная" := fun hx => hnotin (by simp [hx])
    have e2 : tt ≠ "с_пластинами" := fun hx => hnotin (by simp [hx])
    simp [get_cutting_parameters, hop, htt, e1, e2]
  · have e1 : tt ≠ "проходной" := fun hx => hnotin (by simp [hx])
    have e2 : tt ≠ "канавочный" := fun hx => hnotin (by simp [hx])
    simp [get_cutting_parameters, hop, htt, e1, e2]
  · have e1 : tt ≠ "монолитное" := fun hx => hnotin (by simp [hx])
    have e2 : tt ≠ "со_сменными_пластинами" := fun hx => hnotin (by simp [hx])
    simp [get_cutting_parameters, hop, htt, e1, e2]

theorem c10_get_cutting_parameters_total_witness :
    get_cutting_parameters UserData.empty = none :=
  (c10_get_cutting_parameters_total UserData.empty).1 (Or.inl (by simp [sTruthy, UserData.empty]))
